import Mathlib

/-!
Shallow embedding of the Metal3 IPAM IPPool controller
(`controllers/ippool_controller.go`).

External collaborators (object store Get/Patch, the patch helper, the
ManagerFactory and the pool-manager operations) are modelled by an `Env`
record holding the outcome each external call would produce during one
reconciliation pass.  The pool-manager marker operations (`SetFinalizer`,
`UnsetFinalizer`, `SetClusterOwnerRef`) mutate the in-memory pool object;
their effect on the modelled fields follows the interface contract
(idempotent finalizer toggles, owner-reference recording) and they do not
touch the pool's labels.  An `Effects` record logs which manager
operations and the exit-time patch were invoked, so that theorems can
speak about "no pool-manager invocation happened on this path".
-/

namespace IpamSpec

/-- Mirror of `ctrl.Result`: a requeue flag and a requeue-after duration
(nanoseconds, like Go `time.Duration`). -/
structure CtrlResult where
  requeue : Bool
  requeueAfter : Nat
  deriving Repr, DecidableEq

/-- The zero value `ctrl.Result{}`. -/
def emptyResult : CtrlResult := ⟨false, 0⟩

/-- Mirror of the constant `requeueAfter = time.Second * 30` (in nanoseconds). -/
def requeueAfterDur : Nat := 30 * 1000000000

/-- Go `error` values as seen by this controller: a k8s not-found error, an
`ipam.HasRequeueAfterError` carrying a duration, any other plain error, and
`errors.Wrap`/`errors.Wrapf` wrapping. -/
inductive GoError where
  | notFoundErr (msg : String)
  | requeueErr (d : Nat)
  | basicErr (msg : String)
  | wrapErr (msg : String) (inner : GoError)
  deriving Repr, DecidableEq

/-- Mirror of `apierrors.IsNotFound`. -/
def isNotFound : GoError → Bool
  | .notFoundErr _ => true
  | _ => false

/-- Mirror of `errors.As(err, &requeueErr)` for `ipam.HasRequeueAfterError`
followed by `GetRequeueAfter()`: walks the wrap chain and extracts the
requeue duration when some error in the chain carries one. -/
def hasRequeueAfterError : GoError → Option Nat
  | .requeueErr d => some d
  | .wrapErr _ inner => hasRequeueAfterError inner
  | _ => none

/-- Mirror of `checkRequeueError` (ippool_controller.go:244-253). -/
def checkRequeueError (err : Option GoError) (errMessage : String) :
    CtrlResult × Option GoError :=
  match err with
  | none => (emptyResult, none)
  | some e =>
    match hasRequeueAfterError e with
    | some d => (⟨true, d⟩, none)
    | none => (emptyResult, some (.wrapErr errMessage e))

/-- The owning parent (`clusterv1.Cluster`): its name and whether it is
paused (`Spec.Paused` or the paused marker). -/
structure Cluster where
  name : String
  paused : Bool
  deriving Repr, DecidableEq

/-- The zero value `&clusterv1.Cluster{}` left in place when the Get fails. -/
def zeroCluster : Cluster := ⟨"", false⟩

/-- Label maps are association lists with Go-map get/set semantics. -/
def getLabel : List (String × String) → String → Option String
  | [], _ => none
  | (k0, v0) :: rest, k => if k0 = k then some v0 else getLabel rest k

/-- Go-map assignment `m[k] = v` on an association list. -/
def setLabel : List (String × String) → String → String → List (String × String)
  | [], k, v => [(k, v)]
  | (k0, v0) :: rest, k, v =>
    if k0 = k then (k, v) :: rest else (k0, v0) :: setLabel rest k v

/-- Lookup in an optional (possibly nil) label map. -/
def getLabelValue (labels : Option (List (String × String))) (k : String) :
    Option String :=
  match labels with
  | none => none
  | some l => getLabel l k

/-- Value of `clusterv1.ClusterNameLabel`. -/
def clusterNameLabel : String := "cluster.x-k8s.io/cluster-name"

/-- Value of `clusterv1.ProviderNameLabel`. -/
def providerNameLabel : String := "cluster.x-k8s.io/provider"

/-- The `ipamv1.IPPool` object, restricted to the fields this controller
reads or writes: identity, the (possibly nil) label map, the optional
`Spec.ClusterName` owner reference, whether `DeletionTimestamp.IsZero()`,
the finalizer marker, the pool-level paused marker, and the owner
reference recorded by `SetClusterOwnerRef`. -/
structure IPPool where
  name : String
  ns : String
  labels : Option (List (String × String))
  clusterName : Option String
  deletionTimestampIsZero : Bool
  hasFinalizer : Bool
  pausedMark : Bool
  ownerRef : Option String
  deriving Repr, DecidableEq

/-- Mirror of `annotations.IsPaused(cluster, ipamv1IPPool)`: true when the
cluster is paused or the object carries the paused marker. -/
def isPaused (c : Cluster) (p : IPPool) : Bool :=
  c.paused || p.pausedMark

/-- Which external/pool-manager operations a pass invoked. -/
structure Effects where
  setClusterOwnerRefCalled : Bool := false
  setFinalizerCalled : Bool := false
  unsetFinalizerCalled : Bool := false
  updateAddressesCalled : Bool := false
  patchAttempted : Bool := false
  deriving Repr, DecidableEq

deriving instance DecidableEq for Except

/-- Outcomes of the external calls a single reconciliation pass can make:
the pool fetch, the patch-helper construction, the cluster fetch, the
manager-factory call, `SetClusterOwnerRef`, `UpdateAddresses` (allocation
count and error), and the exit-time `helper.Patch`. -/
structure Env where
  getPool : Except GoError IPPool
  newHelperErr : Option GoError
  getCluster : Except GoError Cluster
  newManagerErr : Option GoError
  setClusterOwnerRefErr : Option GoError
  updateAddresses : Nat × Option GoError
  patchErr : Option GoError
  deriving Repr, DecidableEq

/-- State of the pass after the business logic, before the deferred patch. -/
structure StepOut where
  pool : IPPool
  eff : Effects
  result : CtrlResult
  error : Option GoError
  deriving Repr, DecidableEq

/-- Mirror of `reconcileNormal` (ippool_controller.go:147-159):
`SetFinalizer` (idempotent set), then `UpdateAddresses`, routing a non-nil
error through `checkRequeueError`. -/
def reconcileNormal (env : Env) (pool : IPPool) : StepOut :=
  let pool1 := { pool with hasFinalizer := true }
  match env.updateAddresses.2 with
  | some e =>
    let r := checkRequeueError (some e) "Failed to create the missing data"
    ⟨pool1, { setFinalizerCalled := true, updateAddressesCalled := true }, r.1, r.2⟩
  | none =>
    ⟨pool1, { setFinalizerCalled := true, updateAddressesCalled := true },
      emptyResult, none⟩

/-- Mirror of `reconcileDelete` (ippool_controller.go:161-176):
`UpdateAddresses`, routing a non-nil error through `checkRequeueError`;
on success `UnsetFinalizer` exactly when the allocation count is zero. -/
def reconcileDelete (env : Env) (pool : IPPool) : StepOut :=
  match env.updateAddresses.2 with
  | some e =>
    let r := checkRequeueError (some e) "Failed to delete the old secrets"
    ⟨pool, { updateAddressesCalled := true }, r.1, r.2⟩
  | none =>
    if env.updateAddresses.1 = 0 then
      ⟨{ pool with hasFinalizer := false },
        { updateAddressesCalled := true, unsetFinalizerCalled := true },
        emptyResult, none⟩
    else
      ⟨pool, { updateAddressesCalled := true }, emptyResult, none⟩

/-- Branch on the deletion-intent marker (ippool_controller.go:138-144). -/
def dispatch (env : Env) (pool : IPPool) : StepOut :=
  if pool.deletionTimestampIsZero then reconcileNormal env pool
  else reconcileDelete env pool

/-- Mirror of the label stamping (ippool_controller.go:101-105): ensure the
label map exists, then set the cluster-name and provider labels. -/
def stampLabels (pool : IPPool) (cn : String) : IPPool :=
  let labels0 := match pool.labels with
    | none => []
    | some l => l
  { pool with
    labels := some (setLabel (setLabel labels0 clusterNameLabel cn)
      providerNameLabel "ipam-metal3") }

/-- Mirror of the owner gating and dispatch (ippool_controller.go:125-144)
when the gate condition `ClusterName != nil && cluster != nil &&
cluster.Name != ""` holds: `SetClusterOwnerRef`, then the paused check,
then the deletion branch. -/
def gateAndDispatch (env : Env) (pool : IPPool) (c : Cluster) : StepOut :=
  match env.setClusterOwnerRefErr with
  | some e => ⟨pool, { setClusterOwnerRefCalled := true }, emptyResult, some e⟩
  | none =>
    let pool1 := { pool with ownerRef := some c.name }
    if isPaused c pool1 then
      ⟨pool1, { setClusterOwnerRefCalled := true },
        ⟨true, requeueAfterDur⟩, none⟩
    else
      let s := dispatch env pool1
      ⟨s.pool, { s.eff with setClusterOwnerRefCalled := true }, s.result, s.error⟩

/-- Mirror of ippool_controller.go:119-144: manager-factory construction,
then gating when the fetched cluster has a non-empty name, else straight
dispatch. `cluster` is `none` when `Spec.ClusterName` was nil. -/
def afterClusterFetch (env : Env) (pool : IPPool) (cluster : Option Cluster) :
    StepOut :=
  match env.newManagerErr with
  | some e =>
    ⟨pool, {}, emptyResult,
      some (.wrapErr "failed to create helper for managing the IP pool" e)⟩
  | none =>
    match cluster with
    | some c =>
      if pool.clusterName.isSome ∧ c.name ≠ "" then gateAndDispatch env pool c
      else dispatch env pool
    | none => dispatch env pool

/-- Mirror of the body of `Reconcile` after the patch helper is
established (ippool_controller.go:94-144): when `Spec.ClusterName` is
non-nil, stamp the labels, fetch the cluster (a failed fetch leaves the
zero-valued cluster), and early-return an empty success when the fetch
failed and the deletion timestamp is zero. -/
def reconcileBody (env : Env) (pool0 : IPPool) : StepOut :=
  match pool0.clusterName with
  | some cn =>
    let pool1 := stampLabels pool0 cn
    match env.getCluster with
    | .error _ =>
      if pool1.deletionTimestampIsZero then ⟨pool1, {}, emptyResult, none⟩
      else afterClusterFetch env pool1 (some zeroCluster)
    | .ok c => afterClusterFetch env pool1 (some c)
  | none => afterClusterFetch env pool0 none

/-- Result of a whole pass: the final in-memory pool (absent when the pool
fetch failed), the invoked effects, and the returned result and error. -/
structure ReconcileOut where
  pool : Option IPPool
  eff : Effects
  result : CtrlResult
  error : Option GoError
  deriving Repr, DecidableEq

/-- Mirror of the deferred `helper.Patch` (ippool_controller.go:86-92): it
runs on every exit path of the body; a patch failure overwrites the named
error return `rerr`, a patch success leaves it alone. -/
def applyPatch (env : Env) (s : StepOut) : ReconcileOut :=
  match env.patchErr with
  | some pe => ⟨some s.pool, { s.eff with patchAttempted := true }, s.result, some pe⟩
  | none => ⟨some s.pool, { s.eff with patchAttempted := true }, s.result, s.error⟩

/-- Mirror of `Reconcile` (ippool_controller.go:69-145): fetch the pool
(not-found is success-with-nothing-to-do), build the patch helper, run the
body, and flush the deferred patch on every body exit. -/
def reconcile (env : Env) : ReconcileOut :=
  match env.getPool with
  | .error e =>
    if isNotFound e then ⟨none, {}, emptyResult, none⟩
    else ⟨none, {}, emptyResult, some e⟩
  | .ok pool0 =>
    match env.newHelperErr with
    | some e =>
      ⟨some pool0, {}, emptyResult, some (.wrapErr "failed to init patch helper" e)⟩
    | none => applyPatch env (reconcileBody env pool0)

/-- A reconciliation request (`ctrl.Request` / `types.NamespacedName`). -/
structure PoolRequest where
  name : String
  ns : String
  deriving Repr, DecidableEq

/-- A claim-like object as delivered to the mappers: an `ipamv1.IPClaim`
(with its own scope, the referenced pool name and the referenced pool
scope), a `capipamv1.IPAddressClaim` (with its own scope and the
`Spec.PoolRef.Name`), or any other object. -/
inductive ClientObject where
  | ipClaim (ns poolName poolNs : String)
  | ipAddressClaim (ns poolRefName : String)
  | otherObj
  deriving Repr, DecidableEq

/-- Mirror of `IPClaimToIPPool` (ippool_controller.go:207-225). -/
def ipClaimToIPPool : ClientObject → List PoolRequest
  | .ipClaim ns poolName poolNs =>
    if poolName ≠ "" then
      [⟨poolName, if poolNs = "" then ns else poolNs⟩]
    else []
  | _ => []

/-- Mirror of `IPAddressClaimToIPPool` (ippool_controller.go:227-242). -/
def ipAddressClaimToIPPool : ClientObject → List PoolRequest
  | .ipAddressClaim ns poolRefName =>
    if poolRefName ≠ "" then [⟨poolRefName, ns⟩] else []
  | _ => []

/-! Concrete objects used by witnesses and counterexamples. -/

/-- A pool marked for deletion, with a finalizer, no owner reference. -/
def poolDel : IPPool :=
  ⟨"pool-del", "ns1", some [("app", "x")], none, false, true, false, none⟩

/-- An environment whose pool-manager reports two remaining allocations. -/
def envDel2 : Env :=
  ⟨.ok poolDel, none, .error (.basicErr "unused"), none, none, (2, none), none⟩

/-- An environment whose pool-manager reports zero remaining allocations. -/
def envDel0 : Env :=
  ⟨.ok poolDel, none, .error (.basicErr "unused"), none, none, (0, none), none⟩

/-! ### C1 -/

/-- C1: on the Delete path, when `UpdateAddresses` returns allocation
count `n` with no error, the finalizer is removed exactly when `n = 0`;
for nonzero `n` the `UnsetFinalizer` operation is not invoked, the
finalizer state is unchanged, and the path returns an empty result with
no error. -/
theorem reconcileDelete_finalizer_iff_zero (env : Env) (pool : IPPool) (n : Nat)
    (h : env.updateAddresses = (n, none)) :
    ((reconcileDelete env pool).eff.unsetFinalizerCalled = true ↔ n = 0)
    ∧ (n = 0 → (reconcileDelete env pool).pool.hasFinalizer = false)
    ∧ (n ≠ 0 →
        (reconcileDelete env pool).eff.unsetFinalizerCalled = false
        ∧ (reconcileDelete env pool).pool.hasFinalizer = pool.hasFinalizer
        ∧ (reconcileDelete env pool).result = emptyResult
        ∧ (reconcileDelete env pool).error = none) := by
  by_cases hn : n = 0 <;>
    simp [reconcileDelete, h, hn]

/-- C1 witness: at allocation count 2 the finalizer survives the pass and
`UnsetFinalizer` is not invoked; the hypotheses hold at `envDel2`. -/
theorem reconcileDelete_finalizer_iff_zero_witness :
    (reconcileDelete envDel2 poolDel).eff.unsetFinalizerCalled = false
    ∧ (reconcileDelete envDel2 poolDel).pool.hasFinalizer = poolDel.hasFinalizer
    ∧ (reconcileDelete envDel2 poolDel).result = emptyResult
    ∧ (reconcileDelete envDel2 poolDel).error = none :=
  (reconcileDelete_finalizer_iff_zero envDel2 poolDel 2 rfl).2.2 (by decide)

/-! ### C4 -/

/-- C4: the two mappers are total and emit exactly one request when the
input is of that mapper's claim type with a non-empty target-pool name
(the request naming that pool, scoped by the claim's explicit target-pool
scope when non-empty, else the claim's own scope), and the empty list
otherwise. -/
theorem mapper_totality (ns poolName poolNs : String) :
    ipClaimToIPPool (.ipClaim ns poolName poolNs)
      = (if poolName = "" then []
         else [⟨poolName, if poolNs = "" then ns else poolNs⟩])
    ∧ ipClaimToIPPool (.ipAddressClaim ns poolName) = []
    ∧ ipClaimToIPPool .otherObj = []
    ∧ ipAddressClaimToIPPool (.ipAddressClaim ns poolName)
      = (if poolName = "" then [] else [⟨poolName, ns⟩])
    ∧ ipAddressClaimToIPPool (.ipClaim ns poolName poolNs) = []
    ∧ ipAddressClaimToIPPool .otherObj = []
    ∧ (ipClaimToIPPool (.ipClaim ns poolName poolNs)).length ≤ 1
    ∧ (ipAddressClaimToIPPool (.ipAddressClaim ns poolName)).length ≤ 1 := by
  by_cases h : poolName = "" <;>
    simp [ipClaimToIPPool, ipAddressClaimToIPPool, h]

/-! ### C5 -/

/-- C5: the retry classifier maps nil to an empty result with nil error;
an error carrying an explicit requeue duration to a requeue result with
that duration and nil error (the raw error is not propagated); and any
other error to an empty result with the error wrapped in the supplied
message. -/
theorem checkRequeueError_classification (msg : String) (e : GoError) :
    checkRequeueError none msg = (emptyResult, none)
    ∧ checkRequeueError (some e) msg
      = (match hasRequeueAfterError e with
         | some d => (⟨true, d⟩, none)
         | none => (emptyResult, some (.wrapErr msg e))) := by
  refine ⟨rfl, ?_⟩
  cases h : hasRequeueAfterError e <;> simp [checkRequeueError, h]

/-! ### C8 -/

/-- C8: the Normal path is idempotent: running it a second time from the
pool state the first run produced, with the manager returning the same
outcome, yields the same pool state, the same result and error, and the
same set of invoked operations; in particular the finalizer set is
idempotent. -/
theorem reconcileNormal_idempotent (env : Env) (pool : IPPool) :
    (reconcileNormal env (reconcileNormal env pool).pool).pool
      = (reconcileNormal env pool).pool
    ∧ (reconcileNormal env (reconcileNormal env pool).pool).result
      = (reconcileNormal env pool).result
    ∧ (reconcileNormal env (reconcileNormal env pool).pool).error
      = (reconcileNormal env pool).error
    ∧ (reconcileNormal env (reconcileNormal env pool).pool).eff
      = (reconcileNormal env pool).eff := by
  cases h : env.updateAddresses.2 <;> simp [reconcileNormal, h]

/-! ### C2 -/

/-- A pool with an owner reference, not marked for deletion. -/
def poolOwned : IPPool :=
  ⟨"pool-owned", "ns1", none, some "cluster1", true, false, false, none⟩

/-- An environment in which the owner fetch fails for `poolOwned` and
everything else succeeds. -/
def envOwnerGone : Env :=
  ⟨.ok poolOwned, none, .error (.basicErr "cluster not found"), none, none,
    (0, none), none⟩

/-- C2 counterexample: with the owner reference set, the pool not marked
for deletion, and the owner fetch failing, the pass does not return the
thirty-second scheduled retry the claim requires: it returns the empty
result with nil error (and no manager invocation). -/
theorem ownerFetchFail_not_requeued :
    (reconcile envOwnerGone).result ≠ CtrlResult.mk true requeueAfterDur
    ∧ (reconcile envOwnerGone).result = emptyResult
    ∧ (reconcile envOwnerGone).error = none
    ∧ (reconcile envOwnerGone).eff.updateAddressesCalled = false := by
  refine ⟨by decide, rfl, rfl, rfl⟩

/-- C2 amended: when a non-deletion-marked pool's owner fetch fails, the
pass invokes no pool-manager operation and returns the empty
proceed-immediately result with the patch outcome as its only possible
error — not a thirty-second scheduled retry. -/
theorem ownerFetchFail_empty_success (env : Env) (pool : IPPool) (cn : String)
    (e : GoError) (h1 : env.getPool = .ok pool) (h2 : env.newHelperErr = none)
    (h3 : pool.clusterName = some cn) (h4 : pool.deletionTimestampIsZero = true)
    (h5 : env.getCluster = .error e) :
    (reconcile env).result = emptyResult
    ∧ (reconcile env).eff.updateAddressesCalled = false
    ∧ (reconcile env).eff.setClusterOwnerRefCalled = false
    ∧ (reconcile env).eff.setFinalizerCalled = false
    ∧ (reconcile env).error = env.patchErr := by
  cases hp : env.patchErr <;>
    simp [reconcile, h1, h2, reconcileBody, h3, h5, stampLabels, h4,
      applyPatch, hp]

/-- C2 witness: the amended statement holds at `envOwnerGone`, where all
hypotheses are satisfied. -/
theorem ownerFetchFail_empty_success_witness :
    (reconcile envOwnerGone).result = emptyResult
    ∧ (reconcile envOwnerGone).eff.updateAddressesCalled = false
    ∧ (reconcile envOwnerGone).eff.setClusterOwnerRefCalled = false
    ∧ (reconcile envOwnerGone).eff.setFinalizerCalled = false
    ∧ (reconcile envOwnerGone).error = envOwnerGone.patchErr :=
  ownerFetchFail_empty_success envOwnerGone poolOwned "cluster1"
    (.basicErr "cluster not found") rfl rfl rfl rfl rfl

/-! ### C3 -/

/-- A paused pool with no owner reference, not marked for deletion. -/
def poolPausedNoOwner : IPPool :=
  ⟨"pool-paused", "ns1", none, none, true, false, true, none⟩

/-- An environment for `poolPausedNoOwner` where every external call
succeeds. -/
def envPausedNoOwner : Env :=
  ⟨.ok poolPausedNoOwner, none, .error (.basicErr "unused"), none, none,
    (0, none), none⟩

/-- C3 counterexample: a paused pool with no owning-parent reference is
not gated: the pass invokes `UpdateAddresses` and does not return the
thirty-second scheduled retry, contradicting the claim's "every paused
pool, including a pool with no owning-parent reference". -/
theorem pausedNoOwner_not_deferred :
    poolPausedNoOwner.pausedMark = true
    ∧ (reconcile envPausedNoOwner).eff.updateAddressesCalled = true
    ∧ (reconcile envPausedNoOwner).result ≠ CtrlResult.mk true requeueAfterDur := by
  refine ⟨rfl, rfl, by decide⟩

/-- C3 amended: when the pool has an owner reference, the fetched parent
has a non-empty name, and `SetClusterOwnerRef` succeeds, if the pool or
the parent is paused the pass returns the thirty-second scheduled retry,
invokes no further manager operation (no `UpdateAddresses`, no finalizer
operation) — though `SetClusterOwnerRef` itself was already invoked before
the pause check — and its error is the patch outcome. A paused pool with
no owner reference is not gated. -/
theorem paused_defers (env : Env) (pool : IPPool) (cn : String) (c : Cluster)
    (h1 : env.getPool = .ok pool) (h2 : env.newHelperErr = none)
    (h3 : pool.clusterName = some cn) (h4 : env.getCluster = .ok c)
    (h5 : c.name ≠ "") (h6 : env.newManagerErr = none)
    (h7 : env.setClusterOwnerRefErr = none)
    (h8 : c.paused = true ∨ pool.pausedMark = true) :
    (reconcile env).result = CtrlResult.mk true requeueAfterDur
    ∧ (reconcile env).eff.updateAddressesCalled = false
    ∧ (reconcile env).eff.setFinalizerCalled = false
    ∧ (reconcile env).eff.unsetFinalizerCalled = false
    ∧ (reconcile env).eff.setClusterOwnerRefCalled = true
    ∧ (reconcile env).error = env.patchErr := by
  cases hp : env.patchErr <;>
    simp [reconcile, h1, h2, reconcileBody, h3, h4, afterClusterFetch, h6,
      stampLabels, h5, gateAndDispatch, h7, applyPatch, hp, isPaused] <;>
    rcases h8 with h | h <;> simp [stampLabels, h]

/-- A paused parent cluster. -/
def clusterPaused : Cluster := ⟨"cluster1", true⟩

/-- An environment for `poolOwned` whose parent is fetched successfully
and is paused. -/
def envPausedOwner : Env :=
  ⟨.ok poolOwned, none, .ok clusterPaused, none, none, (0, none), none⟩

/-- C3 witness: the amended statement holds at `envPausedOwner`, where all
hypotheses are satisfied. -/
theorem paused_defers_witness :
    (reconcile envPausedOwner).result = CtrlResult.mk true requeueAfterDur
    ∧ (reconcile envPausedOwner).eff.updateAddressesCalled = false
    ∧ (reconcile envPausedOwner).eff.setFinalizerCalled = false
    ∧ (reconcile envPausedOwner).eff.unsetFinalizerCalled = false
    ∧ (reconcile envPausedOwner).eff.setClusterOwnerRefCalled = true
    ∧ (reconcile envPausedOwner).error = envPausedOwner.patchErr :=
  paused_defers envPausedOwner poolOwned "cluster1" clusterPaused
    rfl rfl rfl rfl (by decide) rfl rfl (Or.inl rfl)

/-! ### C6 -/

/-- C6: once the pool fetch and the patch-helper construction succeed, the
exit-time patch is attempted on every exit path of the pass, and a patch
failure becomes the pass's final error, overriding whatever the business
logic returned. -/
theorem patch_flush_always (env : Env) (pool : IPPool)
    (h1 : env.getPool = .ok pool) (h2 : env.newHelperErr = none) :
    (reconcile env).eff.patchAttempted = true
    ∧ (∀ pe, env.patchErr = some pe → (reconcile env).error = some pe) := by
  cases hp : env.patchErr <;>
    simp [reconcile, h1, h2, applyPatch, hp]

/-- An environment whose business logic succeeds but whose exit-time patch
fails. -/
def envPatchFail : Env :=
  ⟨.ok poolDel, none, .error (.basicErr "unused"), none, none, (2, none),
    some (.basicErr "patch conflict")⟩

/-- C6 witness: at `envPatchFail` the business path succeeds, yet the pass
returns the patch error. -/
theorem patch_flush_always_witness :
    (reconcile envPatchFail).eff.patchAttempted = true
    ∧ (reconcile envPatchFail).error = some (.basicErr "patch conflict") := by
  have h := patch_flush_always envPatchFail poolDel rfl rfl
  exact ⟨h.1, h.2 (.basicErr "patch conflict") rfl⟩

/-! ### C7 -/

/-- C7: a deletion-marked pool whose owner reference cannot be resolved is
not deferred: the pass reaches the Delete path (not the Normal path),
invokes `UpdateAddresses`, skips `SetClusterOwnerRef`, and removes the
finalizer when the manager reports zero allocations. -/
theorem missing_owner_delete_proceeds (env : Env) (pool : IPPool) (cn : String)
    (e : GoError) (h1 : env.getPool = .ok pool) (h2 : env.newHelperErr = none)
    (h3 : pool.clusterName = some cn)
    (h4 : pool.deletionTimestampIsZero = false)
    (h5 : env.getCluster = .error e) (h6 : env.newManagerErr = none) :
    (reconcile env).eff.updateAddressesCalled = true
    ∧ (reconcile env).eff.setFinalizerCalled = false
    ∧ (reconcile env).eff.setClusterOwnerRefCalled = false
    ∧ (env.updateAddresses = (0, none) →
        (reconcile env).eff.unsetFinalizerCalled = true) := by
  cases hp : env.patchErr <;>
    cases hu : env.updateAddresses with
    | mk n err =>
      cases err <;>
        by_cases hn : n = 0 <;>
        simp [reconcile, h1, h2, reconcileBody, h3, h5, stampLabels, h4,
          afterClusterFetch, h6, zeroCluster, dispatch, reconcileDelete,
          applyPatch, hp, hu, hn]

/-- A deletion-marked pool that still names a (vanished) owner. -/
def poolDelOwned : IPPool :=
  ⟨"pool-del-owned", "ns1", none, some "cluster1", false, true, false, none⟩

/-- An environment for `poolDelOwned` whose owner fetch fails and whose
manager reports zero remaining allocations. -/
def envDelOwnerGone : Env :=
  ⟨.ok poolDelOwned, none, .error (.basicErr "cluster gone"), none, none,
    (0, none), none⟩

/-- C7 witness: at `envDelOwnerGone` the Delete path runs and removes the
finalizer despite the failed owner resolution. -/
theorem missing_owner_delete_proceeds_witness :
    (reconcile envDelOwnerGone).eff.updateAddressesCalled = true
    ∧ (reconcile envDelOwnerGone).eff.setFinalizerCalled = false
    ∧ (reconcile envDelOwnerGone).eff.setClusterOwnerRefCalled = false
    ∧ (reconcile envDelOwnerGone).eff.unsetFinalizerCalled = true := by
  have h := missing_owner_delete_proceeds envDelOwnerGone poolDelOwned
    "cluster1" (.basicErr "cluster gone") rfl rfl rfl rfl rfl rfl
  exact ⟨h.1, h.2.1, h.2.2.1, h.2.2.2 rfl⟩

/-! ### C9 -/

/-- A non-deletion-marked pool whose owner reference names the empty
string. -/
def poolEmptyRef : IPPool :=
  ⟨"pool-e", "ns1", none, some "", true, false, false, none⟩

/-- The same pool with the owner reference absent instead. -/
def poolNoRef : IPPool :=
  ⟨"pool-e", "ns1", none, none, true, false, false, none⟩

/-- An environment for `poolEmptyRef`: the owner fetch fails (a Get for an
empty name cannot succeed) and everything else succeeds. -/
def envEmptyRef : Env :=
  ⟨.ok poolEmptyRef, none, .error (.basicErr "resource name may not be empty"),
    none, none, (0, none), none⟩

/-- The same environment with `poolNoRef` as the fetched pool. -/
def envNoRef : Env :=
  ⟨.ok poolNoRef, none, .error (.basicErr "resource name may not be empty"),
    none, none, (0, none), none⟩

/-- C9 counterexample: with the owner reference present-but-empty and the
owner fetch failing, the non-deletion-marked pass early-returns without
dispatching to the Normal path (no `SetFinalizer`, no `UpdateAddresses`),
whereas the identical pool with the reference absent does reach the Normal
path — so an empty-string reference is not treated as "no owner, proceed". -/
theorem emptyRef_not_like_absent :
    (reconcile envEmptyRef).eff.updateAddressesCalled = false
    ∧ (reconcile envEmptyRef).eff.setFinalizerCalled = false
    ∧ (reconcile envNoRef).eff.updateAddressesCalled = true
    ∧ (reconcile envNoRef).eff.setFinalizerCalled = true := by
  refine ⟨rfl, rfl, rfl, rfl⟩

/-- C9 amended: a pool whose owner reference names the empty string, with
the owner fetch failing, never invokes `SetClusterOwnerRef` (the pause
gate is never reached); but it proceeds to the business paths only when
deletion-marked (Delete path); when not deletion-marked it early-returns
an empty success with no manager invocation, unlike a pool with an absent
reference. -/
theorem emptyRef_behavior (env : Env) (pool : IPPool) (e : GoError)
    (h1 : env.getPool = .ok pool) (h2 : env.newHelperErr = none)
    (h3 : pool.clusterName = some "") (h4 : env.getCluster = .error e) :
    (reconcile env).eff.setClusterOwnerRefCalled = false
    ∧ (pool.deletionTimestampIsZero = true →
        (reconcile env).eff.updateAddressesCalled = false
        ∧ (reconcile env).eff.setFinalizerCalled = false
        ∧ (reconcile env).result = emptyResult)
    ∧ (pool.deletionTimestampIsZero = false → env.newManagerErr = none →
        (reconcile env).eff.updateAddressesCalled = true
        ∧ (reconcile env).eff.setFinalizerCalled = false) := by
  cases hd : pool.deletionTimestampIsZero
  · cases h6 : env.newManagerErr <;>
      cases hp : env.patchErr <;>
      cases hu : env.updateAddresses with
      | mk n err =>
        cases err <;>
          by_cases hn : n = 0 <;>
          simp [reconcile, h1, h2, reconcileBody, h3, h4, stampLabels, hd,
            afterClusterFetch, h6, zeroCluster, dispatch, reconcileDelete,
            checkRequeueError, applyPatch, hp, hu, hn]
  · cases hp : env.patchErr <;>
      simp [reconcile, h1, h2, reconcileBody, h3, h4, stampLabels, hd,
        applyPatch, hp]

/-- C9 witness: the amended statement holds at `envEmptyRef`, whose pool
is not deletion-marked. -/
theorem emptyRef_behavior_witness :
    (reconcile envEmptyRef).eff.setClusterOwnerRefCalled = false
    ∧ (reconcile envEmptyRef).eff.updateAddressesCalled = false
    ∧ (reconcile envEmptyRef).eff.setFinalizerCalled = false
    ∧ (reconcile envEmptyRef).result = emptyResult := by
  have h := emptyRef_behavior envEmptyRef poolEmptyRef
    (.basicErr "resource name may not be empty") rfl rfl rfl rfl
  have h3 := h.2.1 rfl
  exact ⟨h.1, h3.1, h3.2.1, h3.2.2⟩

/-! ### C10 -/

theorem getLabel_setLabel_same (l : List (String × String)) (k v : String) :
    getLabel (setLabel l k v) k = some v := by
  induction l with
  | nil => simp [setLabel, getLabel]
  | cons hd tl ih =>
    obtain ⟨k0, v0⟩ := hd
    by_cases h : k0 = k <;> simp [setLabel, getLabel, h, ih]

theorem getLabel_setLabel_other (l : List (String × String)) (k v k' : String)
    (h : k' ≠ k) : getLabel (setLabel l k v) k' = getLabel l k' := by
  induction l with
  | nil => simp [setLabel, getLabel, Ne.symm h]
  | cons hd tl ih =>
    obtain ⟨k0, v0⟩ := hd
    by_cases h0 : k0 = k
    · subst h0
      simp [setLabel, getLabel, Ne.symm h]
    · simp [setLabel, getLabel, h0, ih]

theorem stampLabels_getLabel (pool : IPPool) (cn : String) :
    getLabelValue (stampLabels pool cn).labels clusterNameLabel = some cn
    ∧ getLabelValue (stampLabels pool cn).labels providerNameLabel
      = some "ipam-metal3"
    ∧ ∀ k, k ≠ clusterNameLabel → k ≠ providerNameLabel →
        getLabelValue (stampLabels pool cn).labels k
          = getLabelValue pool.labels k := by
  have hne : clusterNameLabel ≠ providerNameLabel := by decide
  refine ⟨?_, ?_, ?_⟩
  · simp [stampLabels, getLabelValue,
      getLabel_setLabel_other _ _ _ _ hne, getLabel_setLabel_same]
  · simp [stampLabels, getLabelValue, getLabel_setLabel_same]
  · intro k hk1 hk2
    cases hl : pool.labels <;>
      simp only [stampLabels, getLabelValue, hl,
        getLabel_setLabel_other _ _ _ _ hk2,
        getLabel_setLabel_other _ _ _ _ hk1] <;>
      rfl

theorem reconcileNormal_labels (env : Env) (p : IPPool) :
    (reconcileNormal env p).pool.labels = p.labels := by
  cases h : env.updateAddresses.2 <;> simp [reconcileNormal, h]

theorem reconcileDelete_labels (env : Env) (p : IPPool) :
    (reconcileDelete env p).pool.labels = p.labels := by
  cases h : env.updateAddresses.2 <;>
    by_cases hn : env.updateAddresses.1 = 0 <;>
    simp [reconcileDelete, h, hn]

theorem dispatch_labels (env : Env) (p : IPPool) :
    (dispatch env p).pool.labels = p.labels := by
  by_cases h : p.deletionTimestampIsZero = true <;>
    simp [dispatch, h, reconcileNormal_labels, reconcileDelete_labels]

theorem gateAndDispatch_labels (env : Env) (p : IPPool) (c : Cluster) :
    (gateAndDispatch env p c).pool.labels = p.labels := by
  cases h : env.setClusterOwnerRefErr <;>
    by_cases hp : isPaused c { p with ownerRef := some c.name } = true <;>
    simp [gateAndDispatch, h, hp, dispatch_labels]

theorem afterClusterFetch_labels (env : Env) (p : IPPool) (c : Option Cluster) :
    (afterClusterFetch env p c).pool.labels = p.labels := by
  cases h : env.newManagerErr
  · cases c with
    | none => simp [afterClusterFetch, h, dispatch_labels]
    | some cl =>
      by_cases hg : p.clusterName.isSome ∧ cl.name ≠ "" <;>
        simp [afterClusterFetch, h, hg, gateAndDispatch_labels, dispatch_labels]
  · simp [afterClusterFetch, h]

theorem reconcileBody_labels (env : Env) (pool : IPPool) (cn : String)
    (h3 : pool.clusterName = some cn) :
    (reconcileBody env pool).pool.labels = (stampLabels pool cn).labels := by
  cases hc : env.getCluster
  · by_cases hd : (stampLabels pool cn).deletionTimestampIsZero = true <;>
      simp [reconcileBody, h3, hc, hd, afterClusterFetch_labels]
  · simp [reconcileBody, h3, hc, afterClusterFetch_labels]

/-- C10: whenever the fetched pool declares an owning-parent reference,
the pass stamps the cluster-name label (the referenced name) and the
provider label ("ipam-metal3") onto the in-memory pool regardless of the
owner-fetch outcome (in particular on a failed owner resolution), the
exit-time patch is attempted, and no other label key is modified by the
pass. -/
theorem labels_stamped_and_framed (env : Env) (pool : IPPool) (cn : String)
    (h1 : env.getPool = .ok pool) (h2 : env.newHelperErr = none)
    (h3 : pool.clusterName = some cn) :
    (reconcile env).eff.patchAttempted = true
    ∧ ((reconcile env).pool.map fun p => getLabelValue p.labels clusterNameLabel)
      = some (some cn)
    ∧ ((reconcile env).pool.map fun p => getLabelValue p.labels providerNameLabel)
      = some (some "ipam-metal3")
    ∧ ∀ k, k ≠ clusterNameLabel → k ≠ providerNameLabel →
        ((reconcile env).pool.map fun p => getLabelValue p.labels k)
          = some (getLabelValue pool.labels k) := by
  have hpool : (reconcile env).pool = some (reconcileBody env pool).pool := by
    cases hp : env.patchErr <;> simp [reconcile, h1, h2, applyPatch, hp]
  have hatt : (reconcile env).eff.patchAttempted = true := by
    cases hp : env.patchErr <;> simp [reconcile, h1, h2, applyPatch, hp]
  have hlab := reconcileBody_labels env pool cn h3
  have hs := stampLabels_getLabel pool cn
  refine ⟨hatt, ?_, ?_, ?_⟩
  · simp [hpool, getLabelValue, hlab]
    simpa [getLabelValue] using hs.1
  · simp [hpool, getLabelValue, hlab]
    simpa [getLabelValue] using hs.2.1
  · intro k hk1 hk2
    simp [hpool, getLabelValue, hlab]
    simpa [getLabelValue] using hs.2.2 k hk1 hk2

/-- A pool with an owner reference and a pre-existing unrelated label. -/
def poolLabeled : IPPool :=
  ⟨"pool-lab", "ns1", some [("team", "blue")], some "cluster1", true, false,
    false, none⟩

/-- An environment for `poolLabeled` whose owner fetch fails. -/
def envLabeled : Env :=
  ⟨.ok poolLabeled, none, .error (.basicErr "cluster not found"), none, none,
    (0, none), none⟩

/-- C10 witness: at `envLabeled` (owner resolution fails) the two labels
are stamped, the patch is attempted, and the unrelated label is
untouched. -/
theorem labels_stamped_and_framed_witness :
    (reconcile envLabeled).eff.patchAttempted = true
    ∧ ((reconcile envLabeled).pool.map fun p =>
        getLabelValue p.labels clusterNameLabel) = some (some "cluster1")
    ∧ ((reconcile envLabeled).pool.map fun p =>
        getLabelValue p.labels providerNameLabel) = some (some "ipam-metal3")
    ∧ ((reconcile envLabeled).pool.map fun p => getLabelValue p.labels "team")
      = some (getLabelValue poolLabeled.labels "team") := by
  have h := labels_stamped_and_framed envLabeled poolLabeled "cluster1"
    rfl rfl rfl
  exact ⟨h.1, h.2.1, h.2.2.1, h.2.2.2 "team" (by decide) (by decide)⟩

end IpamSpec
